import Mathlib

/-!
Verification of the order-workflow core (`app/services/order_service.py`,
`app/routes/orders.py`, `app/schemas/order.py`, `app/models/order.py`).

The Python service layer is shallowly embedded: statuses are the literal
strings of `OrderStatus`, the order table is a list of order records, a
SQLAlchemy session's read-modify-write cycle becomes explicit state passing
(`Db → Db × result`), and `HTTPException` becomes an error value carrying
the status code and detail string.  Integer fields are `Int`; the `price`
float participates only in exact comparisons against `0`, so it is embedded
as `Rat`.
-/

namespace OrderWorkflow

/-- The four status constants of `app/models/order.py` (`class OrderStatus`). -/
def OrderStatus.CREATED : String := "CREATED"

/-- Status constant `VALIDATED`. -/
def OrderStatus.VALIDATED : String := "VALIDATED"

/-- Status constant `APPROVED`. -/
def OrderStatus.APPROVED : String := "APPROVED"

/-- Status constant `REJECTED`. -/
def OrderStatus.REJECTED : String := "REJECTED"

/-- The persisted `Order` entity of `app/models/order.py`. -/
structure Order where
  id : Int
  product_id : Int
  quantity : Int
  price : Rat
  status : String
  deriving Repr, DecidableEq

/-- The `allowed_transitions` dictionary built inside
`OrderService._is_valid_transition`; `.get(current_status, [])` is the
final `else` arm. -/
def allowed_transitions (current_status : String) : List String :=
  if current_status = OrderStatus.CREATED then
    [OrderStatus.VALIDATED, OrderStatus.REJECTED]
  else if current_status = OrderStatus.VALIDATED then
    [OrderStatus.APPROVED, OrderStatus.REJECTED]
  else if current_status = OrderStatus.APPROVED then
    []
  else if current_status = OrderStatus.REJECTED then
    []
  else
    []

/-- `OrderService._is_valid_transition`: membership of `new_status` in the
allowed-transition list for `current_status`. -/
def is_valid_transition (current_status new_status : String) : Bool :=
  (allowed_transitions current_status).contains new_status

/-- The orders table: the storage backend holds a list of order rows. -/
abbrev Db := List Order

/-- `db.query(Order).filter(Order.id == order_id).first()`. -/
def findById (db : Db) (order_id : Int) : Option Order :=
  db.find? (fun o => o.id == order_id)

/-- Committing a mutated row: the row with the given order's id is replaced,
all other rows are untouched. -/
def saveOrder (db : Db) (o : Order) : Db :=
  db.map (fun x => if x.id == o.id then o else x)

/-- `HTTPException(status_code, detail)`. -/
structure HTTPError where
  status_code : Nat
  detail : String
  deriving Repr, DecidableEq

/-- `OrderService.start_validate_order`: load the order (404 if absent),
check the policy allows `current → VALIDATED` (400 otherwise), then enqueue
the order id for background validation and return the acknowledgement
message.  The storage state is returned unchanged in every branch. -/
def start_validate_order (db : Db) (order_id : Int) (background_tasks : List Int) :
    Db × List Int × Except HTTPError String :=
  match findById db order_id with
  | none => (db, background_tasks, .error ⟨404, "Order not found"⟩)
  | some order =>
    if ¬ is_valid_transition order.status OrderStatus.VALIDATED then
      (db, background_tasks,
        .error ⟨400, "Cannot validate order in status \x27" ++ order.status ++
          "\x27. Must be \x27" ++ OrderStatus.CREATED ++ "\x27"⟩)
    else
      (db, background_tasks ++ [order_id], .ok "validation started")

/-- `OrderService._perform_validation`: re-fetch by id in a fresh session;
if absent, return with the storage unchanged; otherwise re-validate the
field values and unconditionally write `REJECTED` or `VALIDATED`. -/
def perform_validation (db : Db) (order_id : Int) : Db :=
  match findById db order_id with
  | none => db
  | some order =>
    if order.product_id ≤ 0 ∨ order.quantity ≤ 0 ∨ order.price ≤ 0 then
      saveOrder db { order with status := OrderStatus.REJECTED }
    else
      saveOrder db { order with status := OrderStatus.VALIDATED }

/-- `OrderService.approve_order`: load (404 if absent), consult the policy
for `current → APPROVED` (400 otherwise), set status, commit, return the
refreshed order. -/
def approve_order (db : Db) (order_id : Int) : Db × Except HTTPError Order :=
  match findById db order_id with
  | none => (db, .error ⟨404, "Order not found"⟩)
  | some order =>
    if ¬ is_valid_transition order.status OrderStatus.APPROVED then
      (db, .error ⟨400, "Cannot approve order in status \x27" ++ order.status ++
        "\x27. Must be \x27" ++ OrderStatus.VALIDATED ++ "\x27"⟩)
    else
      let updated := { order with status := OrderStatus.APPROVED }
      (saveOrder db updated, .ok updated)

/-- `OrderService.reject_order`: load (404 if absent), consult the policy
for `current → REJECTED` (400 otherwise), set status, commit, return the
refreshed order. -/
def reject_order (db : Db) (order_id : Int) : Db × Except HTTPError Order :=
  match findById db order_id with
  | none => (db, .error ⟨404, "Order not found"⟩)
  | some order =>
    if ¬ is_valid_transition order.status OrderStatus.REJECTED then
      (db, .error ⟨400, "Cannot reject order in status \x27" ++ order.status ++
        "\x27. Must be \x27" ++ OrderStatus.CREATED ++ "\x27 or \x27" ++
        OrderStatus.VALIDATED ++ "\x27"⟩)
    else
      let updated := { order with status := OrderStatus.REJECTED }
      (saveOrder db updated, .ok updated)

/-- The `OrderUpdate` request schema of `app/schemas/order.py`: every field
optional; a field left `none` is unset and excluded by
`dict(exclude_unset=True)`. -/
structure OrderUpdate where
  product_id : Option Int := none
  quantity : Option Int := none
  price : Option Rat := none
  status : Option String := none
  deriving Repr, DecidableEq

/-- The pydantic validators on `OrderUpdate`: `quantity` and `price` must be
positive when supplied.  No validator constrains `status`. -/
def orderUpdate_validators_pass (u : OrderUpdate) : Bool :=
  (match u.quantity with | none => true | some v => decide (0 < v)) &&
  (match u.price with | none => true | some v => decide (0 < v))

/-- The `setattr` loop of `update_order` in `app/routes/orders.py`: each
supplied field overwrites the stored one. -/
def applyOrderUpdate (o : Order) (u : OrderUpdate) : Order :=
  { o with
    product_id := u.product_id.getD o.product_id
    quantity := u.quantity.getD o.quantity
    price := u.price.getD o.price
    status := u.status.getD o.status }

/-- The `PUT /orders/{order_id}` route `update_order`: load (404 if
absent), apply the supplied fields, commit, return the refreshed order.
Callers reach it only with a request that passed the schema validators. -/
def update_order (db : Db) (order_id : Int) (u : OrderUpdate) :
    Db × Except HTTPError Order :=
  match findById db order_id with
  | none => (db, .error ⟨404, "Order not found"⟩)
  | some o =>
    let updated := applyOrderUpdate o u
    (saveOrder db updated, .ok updated)

/-- The `POST /orders` route `create_order`: a fresh row in status
`CREATED` is appended to the table. -/
def create_order (db : Db) (new_id product_id quantity : Int) (price : Rat) : Db :=
  db ++ [⟨new_id, product_id, quantity, price, OrderStatus.CREATED⟩]

/-- Membership of a status in the spec's closed enumeration. -/
def statusInEnum (s : String) : Bool :=
  s == OrderStatus.CREATED || s == OrderStatus.VALIDATED ||
  s == OrderStatus.APPROVED || s == OrderStatus.REJECTED

/-- Every row of the table carries a status from the enumeration. -/
def dbStatusesInEnum (db : Db) : Prop :=
  ∀ o ∈ db, statusInEnum o.status = true

/-- A hit of `findById` carries the id it was looked up by. -/
theorem findById_some_id (db : Db) (i : Int) (o : Order)
    (h : findById db i = some o) : o.id = i := by
  have := List.find?_some h
  simpa using this

/-- Saving a row whose id is the one just looked up makes the saved row the
next lookup result for that id. -/
theorem findById_saveOrder_self (db : Db) (i : Int) (o o' : Order)
    (hid : o'.id = o.id) :
    findById db i = some o → findById (saveOrder db o') i = some o' := by
  induction db with
  | nil => intro h; simp [findById] at h
  | cons x xs ih =>
    intro h
    have hoi : o.id = i := findById_some_id _ _ _ h
    by_cases hx : x.id = i
    · have hxo : x = o := by
        have : some x = some o := by
          simpa [findById, List.find?_cons_of_pos, hx] using h
        exact Option.some.inj this
      have hcond : (x.id == o'.id) = true := by
        simp [hxo, hid]
      simp [saveOrder, findById, hcond, List.find?_cons_of_pos, hid, hxo, hoi]
    · have htail : findById xs i = some o := by
        simpa [findById, List.find?_cons_of_neg, hx] using h
      have hxo' : ¬ x.id = o'.id := by
        rw [hid, hoi]; exact hx
      have hsave : saveOrder (x :: xs) o' = x :: saveOrder xs o' := by
        simp [saveOrder, hxo']
      rw [hsave]
      have hskip : findById (x :: saveOrder xs o') i = findById (saveOrder xs o') i := by
        simp [findById, List.find?_cons_of_neg, hx]
      rw [hskip]
      exact ih htail

/-- Every row of a saved table is the saved row or a row of the old table. -/
theorem mem_saveOrder (db : Db) (o' x : Order) (hx : x ∈ saveOrder db o') :
    x = o' ∨ x ∈ db := by
  simp only [saveOrder, List.mem_map] at hx
  obtain ⟨y, hy, hyx⟩ := hx
  by_cases h : (y.id == o'.id) = true
  · left; rw [← hyx, if_pos h]
  · right; rw [← hyx, if_neg h]; exact hy

/-- C2: whenever the background validator finds the order — whatever its
current status — it writes VALIDATED exactly when product reference,
quantity and price are all positive, and REJECTED otherwise; the transition
policy is never consulted (no hypothesis on the current status is needed). -/
theorem C2_validator_unconditional_write (db : Db) (i : Int) (o : Order)
    (h : findById db i = some o) :
    findById (perform_validation db i) i =
      some { o with status :=
        if 0 < o.product_id ∧ 0 < o.quantity ∧ 0 < o.price
        then OrderStatus.VALIDATED else OrderStatus.REJECTED } := by
  have hstep : perform_validation db i =
      if o.product_id ≤ 0 ∨ o.quantity ≤ 0 ∨ o.price ≤ 0 then
        saveOrder db { o with status := OrderStatus.REJECTED }
      else
        saveOrder db { o with status := OrderStatus.VALIDATED } := by
    simp [perform_validation, h]
  rw [hstep]
  by_cases hv : o.product_id ≤ 0 ∨ o.quantity ≤ 0 ∨ o.price ≤ 0
  · rw [if_pos hv]
    have hneg : ¬ (0 < o.product_id ∧ 0 < o.quantity ∧ 0 < o.price) := by
      rintro ⟨h1, h2, h3⟩
      rcases hv with hv | hv | hv
      · exact absurd h1 (not_lt.mpr hv)
      · exact absurd h2 (not_lt.mpr hv)
      · exact absurd h3 (not_lt.mpr hv)
    rw [if_neg hneg]
    exact findById_saveOrder_self db i o _ rfl h
  · rw [if_neg hv]
    have hpos : 0 < o.product_id ∧ 0 < o.quantity ∧ 0 < o.price := by
      push_neg at hv
      exact ⟨hv.1, hv.2.1, hv.2.2⟩
    rw [if_pos hpos]
    exact findById_saveOrder_self db i o _ rfl h

/-- C2 witness: the validator run on an order that is already APPROVED
still overwrites its status (here to VALIDATED, since its fields are
positive) — the unconditional write evaluated on a concrete table. -/
theorem C2_validator_unconditional_write_witness :
    findById (perform_validation [⟨1, 2, 3, 5, OrderStatus.APPROVED⟩] 1) 1 =
      some { (⟨1, 2, 3, 5, OrderStatus.APPROVED⟩ : Order) with status :=
        if 0 < (2 : Int) ∧ 0 < (3 : Int) ∧ 0 < (5 : Rat)
        then OrderStatus.VALIDATED else OrderStatus.REJECTED } :=
  C2_validator_unconditional_write [⟨1, 2, 3, 5, OrderStatus.APPROVED⟩] 1
    ⟨1, 2, 3, 5, OrderStatus.APPROVED⟩ rfl

/-- C8: on a missing order id all three engine operations fail with the
404 NotFound error, the table is unchanged and no task is scheduled. -/
theorem C8_notfound_all_ops (db : Db) (i : Int) (tasks : List Int)
    (h : findById db i = none) :
    start_validate_order db i tasks = (db, tasks, .error ⟨404, "Order not found"⟩) ∧
    approve_order db i = (db, .error ⟨404, "Order not found"⟩) ∧
    reject_order db i = (db, .error ⟨404, "Order not found"⟩) := by
  refine ⟨?_, ?_, ?_⟩ <;>
    simp [start_validate_order, approve_order, reject_order, h]

/-- C8 witness: the three operations on the empty table at id 3. -/
theorem C8_notfound_all_ops_witness :
    start_validate_order ([] : Db) 3 [] = ([], [], .error ⟨404, "Order not found"⟩) ∧
    approve_order ([] : Db) 3 = ([], .error ⟨404, "Order not found"⟩) ∧
    reject_order ([] : Db) 3 = ([], .error ⟨404, "Order not found"⟩) :=
  C8_notfound_all_ops [] 3 [] rfl

/-- C9: the background validator on a missing order id returns the table
unchanged: no error, no created record, no modification. -/
theorem C9_validator_absent_silent (db : Db) (i : Int)
    (h : findById db i = none) :
    perform_validation db i = db := by
  simp [perform_validation, h]

/-- C9 witness: the validator run against the empty table at id 7. -/
theorem C9_validator_absent_silent_witness :
    perform_validation ([] : Db) 7 = [] :=
  C9_validator_absent_silent [] 7 rfl

/-- VALIDATED is reachable through the policy only from CREATED. -/
theorem valid_to_VALIDATED_iff (s : String) :
    is_valid_transition s OrderStatus.VALIDATED = true ↔ s = OrderStatus.CREATED := by
  unfold is_valid_transition allowed_transitions OrderStatus.CREATED
    OrderStatus.VALIDATED OrderStatus.APPROVED OrderStatus.REJECTED
  by_cases h1 : s = "CREATED" <;> by_cases h2 : s = "VALIDATED" <;>
    by_cases h3 : s = "APPROVED" <;> by_cases h4 : s = "REJECTED" <;>
      simp_all [List.contains]

/-- APPROVED is reachable through the policy only from VALIDATED. -/
theorem valid_to_APPROVED_iff (s : String) :
    is_valid_transition s OrderStatus.APPROVED = true ↔ s = OrderStatus.VALIDATED := by
  unfold is_valid_transition allowed_transitions OrderStatus.CREATED
    OrderStatus.VALIDATED OrderStatus.APPROVED OrderStatus.REJECTED
  by_cases h1 : s = "CREATED" <;> by_cases h2 : s = "VALIDATED" <;>
    by_cases h3 : s = "APPROVED" <;> by_cases h4 : s = "REJECTED" <;>
      simp_all [List.contains]

/-- REJECTED is reachable through the policy only from CREATED or VALIDATED. -/
theorem valid_to_REJECTED_iff (s : String) :
    is_valid_transition s OrderStatus.REJECTED = true ↔
      s = OrderStatus.CREATED ∨ s = OrderStatus.VALIDATED := by
  unfold is_valid_transition allowed_transitions OrderStatus.CREATED
    OrderStatus.VALIDATED OrderStatus.APPROVED OrderStatus.REJECTED
  by_cases h1 : s = "CREATED" <;> by_cases h2 : s = "VALIDATED" <;>
    by_cases h3 : s = "APPROVED" <;> by_cases h4 : s = "REJECTED" <;>
      simp_all [List.contains]

/-- Reject on a table whose row for the id is already REJECTED fails with
the InvalidTransition error and leaves the table unchanged. -/
theorem reject_on_rejected (db : Db) (i : Int) (o : Order)
    (h : findById db i = some o) (hs : o.status = OrderStatus.REJECTED) :
    reject_order db i = (db, .error ⟨400,
      "Cannot reject order in status \x27" ++ OrderStatus.REJECTED ++
      "\x27. Must be \x27" ++ OrderStatus.CREATED ++ "\x27 or \x27" ++
      OrderStatus.VALIDATED ++ "\x27"⟩) := by
  simp [reject_order, h, hs]
  decide

/-- C5: on an existing order whose status does not permit the requested
transition, Approve and Reject return the 400 InvalidTransition error whose
message names the current status and the required status(es), and the table
— hence the order — is left unchanged; in particular the policy denies
CREATED → APPROVED and APPROVED → REJECTED. -/
theorem C5_invalid_transition_error (db : Db) (i : Int) (o : Order)
    (h : findById db i = some o) :
    (is_valid_transition o.status OrderStatus.APPROVED = false →
      approve_order db i = (db, .error ⟨400,
        "Cannot approve order in status \x27" ++ o.status ++ "\x27. Must be \x27" ++
        OrderStatus.VALIDATED ++ "\x27"⟩)) ∧
    (is_valid_transition o.status OrderStatus.REJECTED = false →
      reject_order db i = (db, .error ⟨400,
        "Cannot reject order in status \x27" ++ o.status ++ "\x27. Must be \x27" ++
        OrderStatus.CREATED ++ "\x27 or \x27" ++ OrderStatus.VALIDATED ++ "\x27"⟩)) ∧
    is_valid_transition OrderStatus.CREATED OrderStatus.APPROVED = false ∧
    is_valid_transition OrderStatus.APPROVED OrderStatus.REJECTED = false := by
  refine ⟨?_, ?_, by decide, by decide⟩
  · intro hv
    simp [approve_order, h, hv]
  · intro hv
    simp [reject_order, h, hv]

/-- C5 witness: Approve on a CREATED order and Reject on an APPROVED order,
on concrete one-row tables. -/
theorem C5_invalid_transition_error_witness :
    approve_order [⟨1, 1, 1, 1, OrderStatus.CREATED⟩] 1 =
      ([⟨1, 1, 1, 1, OrderStatus.CREATED⟩], .error ⟨400,
        "Cannot approve order in status \x27" ++ OrderStatus.CREATED ++
        "\x27. Must be \x27" ++ OrderStatus.VALIDATED ++ "\x27"⟩) ∧
    reject_order [⟨2, 1, 1, 1, OrderStatus.APPROVED⟩] 2 =
      ([⟨2, 1, 1, 1, OrderStatus.APPROVED⟩], .error ⟨400,
        "Cannot reject order in status \x27" ++ OrderStatus.APPROVED ++
        "\x27. Must be \x27" ++ OrderStatus.CREATED ++ "\x27 or \x27" ++
        OrderStatus.VALIDATED ++ "\x27"⟩) :=
  ⟨(C5_invalid_transition_error [⟨1, 1, 1, 1, OrderStatus.CREATED⟩] 1
      ⟨1, 1, 1, 1, OrderStatus.CREATED⟩ rfl).1 (by decide),
   (C5_invalid_transition_error [⟨2, 1, 1, 1, OrderStatus.APPROVED⟩] 2
      ⟨2, 1, 1, 1, OrderStatus.APPROVED⟩ rfl).2.1 (by decide)⟩

/-- C6: on an order whose status allows the move to VALIDATED (necessarily
CREATED), StartValidation returns the acknowledgement, schedules the id as
a background task, and leaves the table — hence the order's status —
unchanged. -/
theorem C6_start_validation_no_change (db : Db) (i : Int) (tasks : List Int)
    (o : Order) (h : findById db i = some o)
    (hv : is_valid_transition o.status OrderStatus.VALIDATED = true) :
    o.status = OrderStatus.CREATED ∧
    start_validate_order db i tasks = (db, tasks ++ [i], .ok "validation started") ∧
    findById (start_validate_order db i tasks).1 i = some o := by
  refine ⟨(valid_to_VALIDATED_iff _).mp hv, ?_, ?_⟩
  · simp [start_validate_order, h, hv]
  · have heq : (start_validate_order db i tasks).1 = db := by
      simp [start_validate_order, h, hv]
    rw [heq]
    exact h

/-- C6 witness: the spec's example order (productId 1, quantity 2, price
15) in CREATED status: the acknowledgement is returned, the task queue
gains the id, and the row is unchanged. -/
theorem C6_start_validation_no_change_witness :
    start_validate_order [⟨1, 1, 2, 15, OrderStatus.CREATED⟩] 1 [] =
      ([⟨1, 1, 2, 15, OrderStatus.CREATED⟩], [1], .ok "validation started") :=
  (C6_start_validation_no_change [⟨1, 1, 2, 15, OrderStatus.CREATED⟩] 1 []
    ⟨1, 1, 2, 15, OrderStatus.CREATED⟩ rfl (by decide)).2.1

/-- C7: when a first Reject succeeds it persists status REJECTED; a second
Reject on the resulting table fails with the InvalidTransition error naming
REJECTED as the current status, changes nothing, and the order is still
REJECTED afterwards. -/
theorem C7_reject_idempotent (db : Db) (i : Int) (o : Order)
    (h : findById db i = some o)
    (hv : is_valid_transition o.status OrderStatus.REJECTED = true) :
    reject_order db i = (saveOrder db { o with status := OrderStatus.REJECTED },
      .ok { o with status := OrderStatus.REJECTED }) ∧
    findById (reject_order db i).1 i = some { o with status := OrderStatus.REJECTED } ∧
    reject_order (reject_order db i).1 i = ((reject_order db i).1,
      .error ⟨400, "Cannot reject order in status \x27" ++ OrderStatus.REJECTED ++
        "\x27. Must be \x27" ++ OrderStatus.CREATED ++ "\x27 or \x27" ++
        OrderStatus.VALIDATED ++ "\x27"⟩) ∧
    findById (reject_order (reject_order db i).1 i).1 i =
      some { o with status := OrderStatus.REJECTED } := by
  have h1 : reject_order db i =
      (saveOrder db { o with status := OrderStatus.REJECTED },
        .ok { o with status := OrderStatus.REJECTED }) := by
    simp [reject_order, h, hv]
  have h2 : findById (reject_order db i).1 i =
      some { o with status := OrderStatus.REJECTED } := by
    rw [h1]
    exact findById_saveOrder_self db i o _ rfl h
  have h3 : reject_order (reject_order db i).1 i = ((reject_order db i).1,
      .error ⟨400, "Cannot reject order in status \x27" ++ OrderStatus.REJECTED ++
        "\x27. Must be \x27" ++ OrderStatus.CREATED ++ "\x27 or \x27" ++
        OrderStatus.VALIDATED ++ "\x27"⟩) :=
    reject_on_rejected (reject_order db i).1 i
      { o with status := OrderStatus.REJECTED } h2 rfl
  refine ⟨h1, h2, h3, ?_⟩
  rw [h3]
  exact h2

/-- C7 witness: rejecting a concrete CREATED order twice — the second call
returns the InvalidTransition error on the already-REJECTED row. -/
theorem C7_reject_idempotent_witness :
    reject_order (reject_order [⟨1, 1, 1, 1, OrderStatus.CREATED⟩] 1).1 1 =
      ((reject_order [⟨1, 1, 1, 1, OrderStatus.CREATED⟩] 1).1,
        .error ⟨400, "Cannot reject order in status \x27" ++ OrderStatus.REJECTED ++
          "\x27. Must be \x27" ++ OrderStatus.CREATED ++ "\x27 or \x27" ++
          OrderStatus.VALIDATED ++ "\x27"⟩) :=
  (C7_reject_idempotent [⟨1, 1, 1, 1, OrderStatus.CREATED⟩] 1
    ⟨1, 1, 1, 1, OrderStatus.CREATED⟩ rfl (by decide)).2.2.1

/-- C10: a successful Approve or Reject returns and persists an order that
differs from the loaded one only in its status field. -/
theorem C10_success_frame (db : Db) (i : Int) (o : Order)
    (h : findById db i = some o) :
    (is_valid_transition o.status OrderStatus.APPROVED = true →
      ∃ r, approve_order db i = (saveOrder db r, .ok r) ∧
        findById (approve_order db i).1 i = some r ∧
        r.id = o.id ∧ r.product_id = o.product_id ∧ r.quantity = o.quantity ∧
        r.price = o.price ∧ r.status = OrderStatus.APPROVED) ∧
    (is_valid_transition o.status OrderStatus.REJECTED = true →
      ∃ r, reject_order db i = (saveOrder db r, .ok r) ∧
        findById (reject_order db i).1 i = some r ∧
        r.id = o.id ∧ r.product_id = o.product_id ∧ r.quantity = o.quantity ∧
        r.price = o.price ∧ r.status = OrderStatus.REJECTED) := by
  constructor
  · intro hv
    refine ⟨{ o with status := OrderStatus.APPROVED }, ?_, ?_, rfl, rfl, rfl, rfl, rfl⟩
    · simp [approve_order, h, hv]
    · have heq : approve_order db i =
          (saveOrder db { o with status := OrderStatus.APPROVED },
            .ok { o with status := OrderStatus.APPROVED }) := by
        simp [approve_order, h, hv]
      rw [heq]
      exact findById_saveOrder_self db i o _ rfl h
  · intro hv
    refine ⟨{ o with status := OrderStatus.REJECTED }, ?_, ?_, rfl, rfl, rfl, rfl, rfl⟩
    · simp [reject_order, h, hv]
    · have heq : reject_order db i =
          (saveOrder db { o with status := OrderStatus.REJECTED },
            .ok { o with status := OrderStatus.REJECTED }) := by
        simp [reject_order, h, hv]
      rw [heq]
      exact findById_saveOrder_self db i o _ rfl h

/-- C10 witness: approving a concrete VALIDATED order — the frame
conditions evaluated on a one-row table. -/
theorem C10_success_frame_witness :
    ∃ r, approve_order [⟨1, 2, 3, 5, OrderStatus.VALIDATED⟩] 1 =
        (saveOrder [⟨1, 2, 3, 5, OrderStatus.VALIDATED⟩] r, .ok r) ∧
      findById (approve_order [⟨1, 2, 3, 5, OrderStatus.VALIDATED⟩] 1).1 1 = some r ∧
      r.id = (⟨1, 2, 3, 5, OrderStatus.VALIDATED⟩ : Order).id ∧
      r.product_id = (⟨1, 2, 3, 5, OrderStatus.VALIDATED⟩ : Order).product_id ∧
      r.quantity = (⟨1, 2, 3, 5, OrderStatus.VALIDATED⟩ : Order).quantity ∧
      r.price = (⟨1, 2, 3, 5, OrderStatus.VALIDATED⟩ : Order).price ∧
      r.status = OrderStatus.APPROVED :=
  (C10_success_frame [⟨1, 2, 3, 5, OrderStatus.VALIDATED⟩] 1
    ⟨1, 2, 3, 5, OrderStatus.VALIDATED⟩ rfl).1 (by decide)

/-- From a terminal status the policy allows no target at all. -/
theorem terminal_no_targets (s t : String)
    (hs : s = OrderStatus.APPROVED ∨ s = OrderStatus.REJECTED) :
    is_valid_transition s t = false := by
  rcases hs with hs | hs <;> subst hs <;>
    simp [is_valid_transition, allowed_transitions, OrderStatus.CREATED,
      OrderStatus.VALIDATED, OrderStatus.APPROVED, OrderStatus.REJECTED]

/-- C3 counterexample: a reachable run of the system mutates a REJECTED
order.  Start from one CREATED order; StartValidation schedules the
validator (task queue [1]); Reject then moves the order to REJECTED; when
the scheduled validator runs it overwrites the REJECTED order to VALIDATED
— so the background validator run, an operation of the system, does mutate
a REJECTED order. -/
theorem C3_terminal_counterexample :
    (start_validate_order [⟨1, 1, 1, 1, OrderStatus.CREATED⟩] 1 []).2.1 = [1] ∧
    findById (reject_order [⟨1, 1, 1, 1, OrderStatus.CREATED⟩] 1).1 1 =
      some ⟨1, 1, 1, 1, OrderStatus.REJECTED⟩ ∧
    findById (perform_validation
        (reject_order [⟨1, 1, 1, 1, OrderStatus.CREATED⟩] 1).1 1) 1 =
      some ⟨1, 1, 1, 1, OrderStatus.VALIDATED⟩ :=
  ⟨rfl, rfl, rfl⟩

/-- C3 amended: APPROVED and REJECTED are terminal for the three engine
operations — StartValidation, Approve and Reject each leave the table (and
the task queue) unchanged and fail — but not for a background validator
run, which overwrites the status unconditionally. -/
theorem C3_terminal_for_engine_ops (db : Db) (i : Int) (tasks : List Int)
    (o : Order) (h : findById db i = some o)
    (hs : o.status = OrderStatus.APPROVED ∨ o.status = OrderStatus.REJECTED) :
    (start_validate_order db i tasks).1 = db ∧
    (start_validate_order db i tasks).2.1 = tasks ∧
    (approve_order db i).1 = db ∧
    (reject_order db i).1 = db ∧
    (∃ e, (start_validate_order db i tasks).2.2 = Except.error e) ∧
    (∃ e, (approve_order db i).2 = Except.error e) ∧
    (∃ e, (reject_order db i).2 = Except.error e) := by
  have hV := terminal_no_targets o.status OrderStatus.VALIDATED hs
  have hA := terminal_no_targets o.status OrderStatus.APPROVED hs
  have hR := terminal_no_targets o.status OrderStatus.REJECTED hs
  refine ⟨?_, ?_, ?_, ?_, ?_, ?_, ?_⟩ <;>
    simp [start_validate_order, approve_order, reject_order, h, hV, hA, hR]

/-- C3 amended witness: the engine operations on a one-row APPROVED table
leave it unchanged. -/
theorem C3_terminal_for_engine_ops_witness :
    (approve_order [⟨1, 1, 1, 1, OrderStatus.APPROVED⟩] 1).1 =
      [⟨1, 1, 1, 1, OrderStatus.APPROVED⟩] :=
  (C3_terminal_for_engine_ops [⟨1, 1, 1, 1, OrderStatus.APPROVED⟩] 1 []
    ⟨1, 1, 1, 1, OrderStatus.APPROVED⟩ rfl (Or.inl rfl)).2.2.1

/-- C4 counterexample: the update route escapes the status enumeration.
The request setting only status to "SHIPPED" passes every `OrderUpdate`
validator (none constrains status), and `update_order` persists it, so a
reachable order record carries a status outside the four-value
enumeration. -/
theorem C4_status_enum_counterexample :
    orderUpdate_validators_pass ⟨none, none, none, some "SHIPPED"⟩ = true ∧
    findById (update_order [⟨1, 1, 1, 1, OrderStatus.CREATED⟩] 1
        ⟨none, none, none, some "SHIPPED"⟩).1 1 =
      some ⟨1, 1, 1, 1, "SHIPPED"⟩ ∧
    statusInEnum "SHIPPED" = false := by
  refine ⟨rfl, rfl, by decide⟩

/-- The storage component of StartValidation is the input table in every
branch. -/
theorem start_validate_db_unchanged (db : Db) (i : Int) (tasks : List Int) :
    (start_validate_order db i tasks).1 = db := by
  unfold start_validate_order
  cases findById db i with
  | none => rfl
  | some o =>
    dsimp only
    split <;> rfl

/-- Saving a row whose status is in the enumeration preserves the
table-wide enumeration invariant. -/
theorem dbStatusesInEnum_saveOrder (db : Db) (o' : Order)
    (hdb : dbStatusesInEnum db) (ho : statusInEnum o'.status = true) :
    dbStatusesInEnum (saveOrder db o') := by
  intro x hx
  rcases mem_saveOrder db o' x hx with h | h
  · rw [h]; exact ho
  · exact hdb x h

/-- C4 amended: the enumeration invariant is preserved by the core
operations — create, StartValidation, the background validator, Approve
and Reject only ever write statuses from the enumeration — but it is not
maintained by the update route, which writes any caller-supplied status
string (see the counterexample). -/
theorem C4_enum_preserved_by_core (db : Db) (i new_id pid q : Int) (p : Rat)
    (tasks : List Int) (hdb : dbStatusesInEnum db) :
    dbStatusesInEnum (create_order db new_id pid q p) ∧
    dbStatusesInEnum (start_validate_order db i tasks).1 ∧
    dbStatusesInEnum (perform_validation db i) ∧
    dbStatusesInEnum (approve_order db i).1 ∧
    dbStatusesInEnum (reject_order db i).1 := by
  refine ⟨?_, ?_, ?_, ?_, ?_⟩
  · intro x hx
    rcases List.mem_append.mp hx with hx | hx
    · exact hdb x hx
    · have hx' : x = ⟨new_id, pid, q, p, OrderStatus.CREATED⟩ := by
        simpa using hx
      rw [hx']
      rfl
  · rw [start_validate_db_unchanged]
    exact hdb
  · cases hfind : findById db i with
    | none =>
      have : perform_validation db i = db := by
        simp [perform_validation, hfind]
      rw [this]; exact hdb
    | some o =>
      have hstep : perform_validation db i =
          if o.product_id ≤ 0 ∨ o.quantity ≤ 0 ∨ o.price ≤ 0 then
            saveOrder db { o with status := OrderStatus.REJECTED }
          else
            saveOrder db { o with status := OrderStatus.VALIDATED } := by
        simp [perform_validation, hfind]
      rw [hstep]
      by_cases hv : o.product_id ≤ 0 ∨ o.quantity ≤ 0 ∨ o.price ≤ 0
      · rw [if_pos hv]
        exact dbStatusesInEnum_saveOrder db _ hdb rfl
      · rw [if_neg hv]
        exact dbStatusesInEnum_saveOrder db _ hdb rfl
  · cases hfind : findById db i with
    | none =>
      have : (approve_order db i).1 = db := by
        simp [approve_order, hfind]
      rw [this]; exact hdb
    | some o =>
      by_cases hv : is_valid_transition o.status OrderStatus.APPROVED = true
      · have : (approve_order db i).1 =
            saveOrder db { o with status := OrderStatus.APPROVED } := by
          simp [approve_order, hfind, hv]
        rw [this]
        exact dbStatusesInEnum_saveOrder db _ hdb rfl
      · have hv' : is_valid_transition o.status OrderStatus.APPROVED = false := by
          simpa using hv
        have : (approve_order db i).1 = db := by
          simp [approve_order, hfind, hv']
        rw [this]; exact hdb
  · cases hfind : findById db i with
    | none =>
      have : (reject_order db i).1 = db := by
        simp [reject_order, hfind]
      rw [this]; exact hdb
    | some o =>
      by_cases hv : is_valid_transition o.status OrderStatus.REJECTED = true
      · have : (reject_order db i).1 =
            saveOrder db { o with status := OrderStatus.REJECTED } := by
          simp [reject_order, hfind, hv]
        rw [this]
        exact dbStatusesInEnum_saveOrder db _ hdb rfl
      · have hv' : is_valid_transition o.status OrderStatus.REJECTED = false := by
          simpa using hv
        have : (reject_order db i).1 = db := by
          simp [reject_order, hfind, hv']
        rw [this]; exact hdb

/-- C4 amended witness: the invariant evaluated through a concrete create
followed by a validator run on the singleton table. -/
theorem C4_enum_preserved_by_core_witness :
    dbStatusesInEnum (create_order ([] : Db) 1 2 3 5) ∧
    dbStatusesInEnum (perform_validation (create_order ([] : Db) 1 2 3 5) 1) :=
  ⟨(C4_enum_preserved_by_core [] 1 1 2 3 5 [] (by intro x hx; cases hx)).1,
   ((C4_enum_preserved_by_core (create_order ([] : Db) 1 2 3 5) 1 9 9 9 9 []
      (by intro x hx
          rcases List.mem_append.mp hx with hx | hx
          · cases hx
          · rw [show x = ⟨1, 2, 3, 5, OrderStatus.CREATED⟩ by simpa using hx]
            decide)).2.2.1)⟩

/-- C1: the transition policy agrees with the spec's table on every pair of
statuses, and any current status outside the four-value enumeration allows
no target. -/
theorem C1_transition_policy_table :
    (∀ t, is_valid_transition OrderStatus.CREATED t =
      (t == OrderStatus.VALIDATED || t == OrderStatus.REJECTED)) ∧
    (∀ t, is_valid_transition OrderStatus.VALIDATED t =
      (t == OrderStatus.APPROVED || t == OrderStatus.REJECTED)) ∧
    (∀ t, is_valid_transition OrderStatus.APPROVED t = false) ∧
    (∀ t, is_valid_transition OrderStatus.REJECTED t = false) ∧
    (∀ s t, s ≠ OrderStatus.CREATED → s ≠ OrderStatus.VALIDATED →
      s ≠ OrderStatus.APPROVED → s ≠ OrderStatus.REJECTED →
      is_valid_transition s t = false) := by
  refine ⟨?_, ?_, ?_, ?_, ?_⟩
  · intro t
    simp [is_valid_transition, allowed_transitions, OrderStatus.CREATED,
      OrderStatus.VALIDATED, OrderStatus.REJECTED, List.contains,
      Bool.beq_eq_decide_eq]
  · intro t
    simp [is_valid_transition, allowed_transitions, OrderStatus.CREATED,
      OrderStatus.VALIDATED, OrderStatus.APPROVED, OrderStatus.REJECTED,
      List.contains, Bool.beq_eq_decide_eq]
  · intro t
    simp [is_valid_transition, allowed_transitions, OrderStatus.CREATED,
      OrderStatus.VALIDATED, OrderStatus.APPROVED]
  · intro t
    simp [is_valid_transition, allowed_transitions, OrderStatus.CREATED,
      OrderStatus.VALIDATED, OrderStatus.APPROVED, OrderStatus.REJECTED]
  · intro s t h1 h2 h3 h4
    simp [is_valid_transition, allowed_transitions, h1, h2, h3, h4]

/-- C1 witness: the defensive arm evaluated at the concrete status
"SHIPPED", which is outside the enumeration. -/
theorem C1_transition_policy_table_witness :
    is_valid_transition "SHIPPED" OrderStatus.VALIDATED = false :=
  C1_transition_policy_table.2.2.2.2 "SHIPPED" OrderStatus.VALIDATED
    (by decide) (by decide) (by decide) (by decide)

end OrderWorkflow
